import Mathlib

/-!
Verification of the timebox lifecycle / session-accounting core of the
`timeboxd` repository (`src/src-tauri/src`).

Shallow embedding conventions:

* SQLite values are modelled by `SqlValue`; a row returned by a SELECT is a
  `List SqlValue` and `rusqlite::Row::get(i)` is modelled by a lookup that
  fails (`none`) on an out-of-range index or a type mismatch, exactly as
  `rusqlite` returns `Error::InvalidColumnIndex` / `Error::InvalidColumnType`.
* Timestamps are TEXT in the store and `String` in the Rust structs.  The
  formatter `Local::now().format("%Y-%m-%d %H:%M:%S")` is an order-preserving
  injective rendering of the clock, so the database model `Db` keeps
  timestamps as `Int` (seconds of the injected clock) and renders them with
  `toString` when a SELECT row is built.  `date(ts)` is modelled by `dayOf`
  (whole days of the clock) and `julianday(a) - julianday(b)` scaled by 86400
  is the integer difference of the two clocks.
* Each Tauri command is modelled as a function from the current clock and its
  arguments to the pair (resulting database state, returned `Result`), with
  `Err` represented by `Except.error`.  Statements execute in source order,
  and a command that returns early on an error keeps the writes already made
  (the source opens no transaction).
-/

/-- A SQLite storage value as far as the core's columns need: NULL, INTEGER
or TEXT. -/
inductive SqlValue
  | null
  | int (i : Int)
  | text (s : String)
deriving DecidableEq, Repr

/-- `row.get::<i64>(i)` — an INTEGER column read. -/
def rowGetInt (row : List SqlValue) (i : Nat) : Option Int :=
  match row.get? i with
  | some (SqlValue.int n) => some n
  | _ => none

/-- `row.get::<String>(i)` — a TEXT NOT NULL column read. -/
def rowGetText (row : List SqlValue) (i : Nat) : Option String :=
  match row.get? i with
  | some (SqlValue.text s) => some s
  | _ => none

/-- `row.get::<Option<String>>(i)` — a nullable TEXT column read. -/
def rowGetOptText (row : List SqlValue) (i : Nat) : Option (Option String) :=
  match row.get? i with
  | some SqlValue.null => some none
  | some (SqlValue.text s) => some (some s)
  | _ => none

/-- `row.get::<Option<i64>>(i)` — a nullable INTEGER column read. -/
def rowGetOptInt (row : List SqlValue) (i : Nat) : Option (Option Int) :=
  match row.get? i with
  | some SqlValue.null => some none
  | some (SqlValue.int n) => some (some n)
  | _ => none

/-- `TimeboxStatus` from `models/timebox.rs`. -/
inductive TimeboxStatus
  | notStarted
  | inProgress
  | paused
  | completed
  | cancelled
  | stopped
deriving DecidableEq, Repr

/-- `TimeboxStatus::as_str`. -/
def timeboxStatusAsStr : TimeboxStatus → String
  | .notStarted => "not_started"
  | .inProgress => "in_progress"
  | .paused => "paused"
  | .completed => "completed"
  | .cancelled => "cancelled"
  | .stopped => "stopped"

/-- `TimeboxStatus::from_str` — unknown strings default to `NotStarted`,
as in the source. -/
def timeboxStatusFromStr (s : String) : TimeboxStatus :=
  if s = "not_started" then .notStarted
  else if s = "in_progress" then .inProgress
  else if s = "paused" then .paused
  else if s = "completed" then .completed
  else if s = "cancelled" then .cancelled
  else if s = "stopped" then .stopped
  else .notStarted

/-- The Rust struct `Timebox` (`models/timebox.rs`), including the three
`linear_*` fields. -/
structure TimeboxModel where
  id : Int
  intention : String
  notes : Option String
  intended_duration : Int
  status : TimeboxStatus
  created_at : String
  updated_at : String
  started_at : Option String
  completed_at : Option String
  after_time_stopped_at : Option String
  deleted_at : Option String
  canceled_at : Option String
  display_order : Option Int
  archived_at : Option String
  finished_at : Option String
  linear_project_id : Option Int
  linear_issue_id : Option String
  linear_issue_url : Option String
deriving DecidableEq, Repr

/-- First half of the reads performed by `Timebox::from_row`, in source
order: the status string (column 4) first, then columns 0,1,2,3,5,6,7,8.
(`from_row` is one function in the source; it is split in two here only to
keep elaboration of the long `?`-chain tractable — the reads, their indices
and their order are unchanged.) -/
def timeboxRowPart1 (row : List SqlValue) :
    Option (String × Int × String × Option String × Int × String × String ×
            Option String × Option String) := do
  let statusStr ← rowGetText row 4
  let i ← rowGetInt row 0
  let intention ← rowGetText row 1
  let notes ← rowGetOptText row 2
  let intendedDuration ← rowGetInt row 3
  let createdAt ← rowGetText row 5
  let updatedAt ← rowGetText row 6
  let startedAt ← rowGetOptText row 7
  let completedAt ← rowGetOptText row 8
  pure (statusStr, i, intention, notes, intendedDuration, createdAt,
        updatedAt, startedAt, completedAt)

/-- Second half of the reads performed by `Timebox::from_row`: columns 9
through 14, then the out-of-range indices 15, 16, 17 for
`linear_project_id`, `linear_issue_id`, `linear_issue_url`. -/
def timeboxRowPart2 (row : List SqlValue) :
    Option (Option String × Option String × Option String × Option Int ×
            Option String × Option String × Option Int × Option String ×
            Option String) := do
  let afterTimeStoppedAt ← rowGetOptText row 9
  let deletedAt ← rowGetOptText row 10
  let canceledAt ← rowGetOptText row 11
  let displayOrder ← rowGetOptInt row 12
  let archivedAt ← rowGetOptText row 13
  let finishedAt ← rowGetOptText row 14
  let linearProjectId ← rowGetOptInt row 15
  let linearIssueId ← rowGetOptText row 16
  let linearIssueUrl ← rowGetOptText row 17
  pure (afterTimeStoppedAt, deletedAt, canceledAt, displayOrder, archivedAt,
        finishedAt, linearProjectId, linearIssueId, linearIssueUrl)

/-- `Timebox::from_row` (`models/timebox.rs` lines 82-106). -/
def timeboxFromRow (row : List SqlValue) : Option TimeboxModel := do
  let (statusStr, i, intention, notes, intendedDuration, createdAt,
       updatedAt, startedAt, completedAt) ← timeboxRowPart1 row
  let (afterTimeStoppedAt, deletedAt, canceledAt, displayOrder, archivedAt,
       finishedAt, linearProjectId, linearIssueId, linearIssueUrl) ← timeboxRowPart2 row
  pure { id := i, intention := intention, notes := notes,
         intended_duration := intendedDuration,
         status := timeboxStatusFromStr statusStr,
         created_at := createdAt, updated_at := updatedAt,
         started_at := startedAt, completed_at := completedAt,
         after_time_stopped_at := afterTimeStoppedAt,
         deleted_at := deletedAt, canceled_at := canceledAt,
         display_order := displayOrder, archived_at := archivedAt,
         finished_at := finishedAt, linear_project_id := linearProjectId,
         linear_issue_id := linearIssueId, linear_issue_url := linearIssueUrl }

/-- The Rust struct `Session` (`models/session.rs`): note the field names
(`start_time`, `end_time`, `end_reason`, `created_at`) do not match the
`sessions` table's columns. -/
structure SessionModel where
  id : Int
  timebox_id : Int
  start_time : String
  end_time : Option String
  end_reason : Option String
  created_at : String
deriving DecidableEq, Repr

/-- `Session::from_row`: reads six columns, indices 0 through 5. -/
def sessionFromRow (row : List SqlValue) : Option SessionModel := do
  let i ← rowGetInt row 0
  let timeboxId ← rowGetInt row 1
  let startTime ← rowGetText row 2
  let endTime ← rowGetOptText row 3
  let endReason ← rowGetOptText row 4
  let createdAt ← rowGetText row 5
  pure { id := i, timebox_id := timeboxId, start_time := startTime,
         end_time := endTime, end_reason := endReason, created_at := createdAt }

/-- `TIMEBOX_SELECT_COLUMNS` from `commands/timebox.rs` as a column list. -/
def timeboxSelectColumns : List String :=
  ["id", "intention", "notes", "intended_duration", "status", "created_at",
   "updated_at", "started_at", "completed_at", "after_time_stopped_at",
   "deleted_at", "canceled_at", "display_order", "archived_at", "finished_at"]

/-- Columns of the `timeboxes` table created by migration version 3
(`database.rs`). -/
def timeboxesTableColumnsV3 : List String :=
  ["id", "intention", "notes", "intended_duration", "status", "created_at",
   "updated_at", "started_at", "completed_at", "after_time_stopped_at",
   "deleted_at", "canceled_at"]

/-- Columns of the `timeboxes` table after all migrations (version 4 adds
`display_order` and `archived_at`, version 5 adds `finished_at`; no migration
adds any `linear_*` column). -/
def timeboxesTableColumns : List String :=
  timeboxesTableColumnsV3 ++ ["display_order", "archived_at"] ++ ["finished_at"]

/-- The column list of every session SELECT in `commands/session.rs` and
`commands/timebox.rs`. -/
def sessionSelectColumns : List String :=
  ["id", "timebox_id", "started_at", "stopped_at", "cancelled_at"]

/-- A stored row of the `timeboxes` table after all migrations.  Timestamp
columns (TEXT in SQLite) are kept as the underlying clock value `Int`; they
are rendered with `toString` when a SELECT row is produced. -/
structure TimeboxRow where
  id : Int
  intention : String
  notes : Option String
  intended_duration : Int
  status : String
  created_at : Int
  updated_at : Int
  started_at : Option Int
  completed_at : Option Int
  after_time_stopped_at : Option Int
  deleted_at : Option Int
  canceled_at : Option Int
  display_order : Option Int
  archived_at : Option Int
  finished_at : Option Int
deriving DecidableEq, Repr

/-- A stored row of the `sessions` table. -/
structure SessionRow where
  id : Int
  timebox_id : Int
  started_at : Int
  stopped_at : Option Int
  cancelled_at : Option Int
deriving DecidableEq, Repr

/-- A stored row of the `timebox_change_log` table. -/
structure ChangeLogRow where
  timebox_id : Int
  previous_intention_title : Option String
  updated_intention_title : Option String
  previous_note_content : Option String
  updated_note_content : Option String
  previous_intended_duration : Option Int
  new_intended_duration : Option Int
  updated_at : Int
deriving DecidableEq, Repr

/-- The SQLite database state: the three core tables plus the AUTOINCREMENT
counters for `timeboxes.id` and `sessions.id`. -/
structure Db where
  timeboxes : List TimeboxRow
  sessions : List SessionRow
  changeLog : List ChangeLogRow
  nextTimeboxId : Int
  nextSessionId : Int
deriving DecidableEq, Repr

/-- The empty database right after the migrations (AUTOINCREMENT starts
at 1). -/
def emptyDb : Db :=
  { timeboxes := [], sessions := [], changeLog := [],
    nextTimeboxId := 1, nextSessionId := 1 }

/-- A nullable timestamp column as a SELECT value. -/
def sqlOfOptTs : Option Int → SqlValue
  | none => SqlValue.null
  | some t => SqlValue.text (toString t)

/-- A nullable TEXT column as a SELECT value. -/
def sqlOfOptText : Option String → SqlValue
  | none => SqlValue.null
  | some s => SqlValue.text s

/-- A nullable INTEGER column as a SELECT value. -/
def sqlOfOptInt : Option Int → SqlValue
  | none => SqlValue.null
  | some n => SqlValue.int n

/-- The row a `SELECT TIMEBOX_SELECT_COLUMNS FROM timeboxes` query yields
for a stored timebox: exactly the fifteen named columns, in their order. -/
def timeboxSelectRow (tb : TimeboxRow) : List SqlValue :=
  [SqlValue.int tb.id, SqlValue.text tb.intention, sqlOfOptText tb.notes,
   SqlValue.int tb.intended_duration, SqlValue.text tb.status,
   SqlValue.text (toString tb.created_at), SqlValue.text (toString tb.updated_at),
   sqlOfOptTs tb.started_at, sqlOfOptTs tb.completed_at,
   sqlOfOptTs tb.after_time_stopped_at, sqlOfOptTs tb.deleted_at,
   sqlOfOptTs tb.canceled_at, sqlOfOptInt tb.display_order,
   sqlOfOptTs tb.archived_at, sqlOfOptTs tb.finished_at]

/-- The row a `SELECT id, timebox_id, started_at, stopped_at, cancelled_at
FROM sessions` query yields for a stored session: five columns. -/
def sessionSelectRow (s : SessionRow) : List SqlValue :=
  [SqlValue.int s.id, SqlValue.int s.timebox_id,
   SqlValue.text (toString s.started_at),
   sqlOfOptTs s.stopped_at, sqlOfOptTs s.cancelled_at]

/-- Whether a `Result` is an `Err`. -/
def exceptIsError {ε α : Type} : Except ε α → Bool
  | Except.error _ => true
  | Except.ok _ => false

/-- The trailing `SELECT {TIMEBOX_SELECT_COLUMNS} FROM timeboxes WHERE id = ?1`
+ `query_row(_, Timebox::from_row)` that every single-timebox command ends
with: `QueryReturnedNoRows` if no row matches, otherwise the result of
`Timebox::from_row` on the selected row. -/
def timeboxQueryRow (db : Db) (i : Int) : Except String TimeboxModel :=
  match db.timeboxes.find? (fun tb => tb.id == i) with
  | none => Except.error "QueryReturnedNoRows"
  | some tb =>
    match timeboxFromRow (timeboxSelectRow tb) with
    | none => Except.error "InvalidColumnIndex(15)"
    | some t => Except.ok t

/-- The trailing session SELECT of `stop_session` / `cancel_session`. -/
def sessionQueryRow (db : Db) (sid : Int) : Except String SessionModel :=
  match db.sessions.find? (fun s => s.id == sid) with
  | none => Except.error "QueryReturnedNoRows"
  | some s =>
    match sessionFromRow (sessionSelectRow s) with
    | none => Except.error "InvalidColumnIndex(5)"
    | some m => Except.ok m

/-- `CreateTimeboxRequest` (`models/timebox.rs`) — `linear_project_id` is
accepted but never used by `create_timebox`. -/
structure CreateTimeboxReq where
  intention : String
  intended_duration : Int
  notes : Option String
  linear_project_id : Option Int
deriving DecidableEq, Repr

/-- `UpdateTimeboxRequest` (`models/timebox.rs`). -/
structure UpdateTimeboxReq where
  intention : Option String
  notes : Option String
  intended_duration : Option Int
deriving DecidableEq, Repr

/-- One element of the `reorder_timeboxes` batch. -/
structure ReorderReq where
  id : Int
  display_order : Int
deriving DecidableEq, Repr

/-- A session is open iff both `stopped_at` and `cancelled_at` are null. -/
def isOpenSession (s : SessionRow) : Bool :=
  s.stopped_at.isNone && s.cancelled_at.isNone

/-- Effect on one stored session of `UPDATE sessions SET stopped_at = now
WHERE timebox_id = tid AND stopped_at IS NULL AND cancelled_at IS NULL`. -/
def closeStoppedRowTb (now tid : Int) (s : SessionRow) : SessionRow :=
  if s.timebox_id == tid && isOpenSession s then { s with stopped_at := some now } else s

/-- Effect on one stored session of `UPDATE sessions SET cancelled_at = now
WHERE timebox_id = tid AND stopped_at IS NULL AND cancelled_at IS NULL`. -/
def closeCancelledRowTb (now tid : Int) (s : SessionRow) : SessionRow :=
  if s.timebox_id == tid && isOpenSession s then { s with cancelled_at := some now } else s

/-- Effect on one stored session of `UPDATE sessions SET stopped_at = now
WHERE id = sid AND stopped_at IS NULL AND cancelled_at IS NULL`. -/
def stopSessionRow (now sid : Int) (s : SessionRow) : SessionRow :=
  if s.id == sid && isOpenSession s then { s with stopped_at := some now } else s

/-- Effect on one stored session of `UPDATE sessions SET cancelled_at = now
WHERE id = sid AND stopped_at IS NULL AND cancelled_at IS NULL`. -/
def cancelSessionRow (now sid : Int) (s : SessionRow) : SessionRow :=
  if s.id == sid && isOpenSession s then { s with cancelled_at := some now } else s

/-- `create_timebox`: INSERT with the schema defaults (status
`not_started`, `created_at`/`updated_at` = now), then the trailing SELECT.
There is no input validation. -/
def createTimeboxCmd (now : Int) (req : CreateTimeboxReq) (db : Db) :
    Db × Except String TimeboxModel :=
  let row : TimeboxRow :=
    { id := db.nextTimeboxId, intention := req.intention, notes := req.notes,
      intended_duration := req.intended_duration, status := "not_started",
      created_at := now, updated_at := now, started_at := none,
      completed_at := none, after_time_stopped_at := none, deleted_at := none,
      canceled_at := none, display_order := none, archived_at := none,
      finished_at := none }
  let db' : Db := { db with timeboxes := db.timeboxes ++ [row],
                            nextTimeboxId := db.nextTimeboxId + 1 }
  (db', timeboxQueryRow db' db.nextTimeboxId)

/-- Effect on one stored timebox of the first-start UPDATE of
`start_timebox`. -/
def startFirstRow (now i : Int) (t : TimeboxRow) : TimeboxRow :=
  if t.id == i then
    { t with started_at := some now, status := "in_progress", updated_at := now }
  else t

/-- Effect on one stored timebox of the restart UPDATE of `start_timebox`
(`status = in_progress, completed_at = NULL`). -/
def startRestartRow (now i : Int) (t : TimeboxRow) : TimeboxRow :=
  if t.id == i then
    { t with status := "in_progress", completed_at := none, updated_at := now }
  else t

/-- `start_timebox`: first a `SELECT started_at ... WHERE id = ?1 AND
deleted_at IS NULL` (early `Err` if no row), then one of two UPDATEs, then
an unconditional session INSERT, then the trailing SELECT. -/
def startTimeboxCmd (now i : Int) (db : Db) : Db × Except String TimeboxModel :=
  match db.timeboxes.find? (fun tb => tb.id == i && tb.deleted_at.isNone) with
  | none => (db, Except.error "QueryReturnedNoRows")
  | some tb =>
    let db1 : Db :=
      if tb.started_at.isNone then
        { db with timeboxes := db.timeboxes.map (startFirstRow now i) }
      else
        { db with timeboxes := db.timeboxes.map (startRestartRow now i) }
    let db2 : Db :=
      { db1 with
        sessions := db1.sessions ++
          [{ id := db1.nextSessionId, timebox_id := i, started_at := now,
             stopped_at := none, cancelled_at := none }],
        nextSessionId := db1.nextSessionId + 1 }
    (db2, timeboxQueryRow db2 i)

/-- Effect on one stored timebox of the UPDATE of `stop_timebox`. -/
def stopRowTb (now i : Int) (t : TimeboxRow) : TimeboxRow :=
  if t.id == i then
    { t with completed_at := some now, status := "stopped", updated_at := now }
  else t

/-- `stop_timebox`: close open sessions with `stopped_at`, then set
`completed_at`/status `stopped`, then the trailing SELECT. -/
def stopTimeboxCmd (now i : Int) (db : Db) : Db × Except String TimeboxModel :=
  let db' : Db := { db with sessions := db.sessions.map (closeStoppedRowTb now i),
                            timeboxes := db.timeboxes.map (stopRowTb now i) }
  (db', timeboxQueryRow db' i)

/-- Effect on one stored timebox of the UPDATE of `finish_timebox`. -/
def finishRowTb (now i : Int) (t : TimeboxRow) : TimeboxRow :=
  if t.id == i then
    { t with finished_at := some now, completed_at := some now,
             status := "completed", updated_at := now }
  else t

/-- `finish_timebox`: close open sessions with `stopped_at`, then set
`finished_at = completed_at = now`, status `completed`. -/
def finishTimeboxCmd (now i : Int) (db : Db) : Db × Except String TimeboxModel :=
  let db' : Db := { db with sessions := db.sessions.map (closeStoppedRowTb now i),
                            timeboxes := db.timeboxes.map (finishRowTb now i) }
  (db', timeboxQueryRow db' i)

/-- Effect on one stored timebox of the UPDATE of `stop_timebox_after_time`. -/
def afterTimeRowTb (now i : Int) (t : TimeboxRow) : TimeboxRow :=
  if t.id == i then
    { t with after_time_stopped_at := some now, completed_at := some now,
             status := "completed", updated_at := now }
  else t

/-- `stop_timebox_after_time`: close open sessions with `stopped_at`, then
set `after_time_stopped_at = completed_at = now`, status `completed`. -/
def stopAfterTimeCmd (now i : Int) (db : Db) : Db × Except String TimeboxModel :=
  let db' : Db := { db with sessions := db.sessions.map (closeStoppedRowTb now i),
                            timeboxes := db.timeboxes.map (afterTimeRowTb now i) }
  (db', timeboxQueryRow db' i)

/-- Effect on one stored timebox of the UPDATE of `cancel_timebox`. -/
def cancelRowTb (now i : Int) (t : TimeboxRow) : TimeboxRow :=
  if t.id == i then
    { t with canceled_at := some now, status := "cancelled", updated_at := now }
  else t

/-- `cancel_timebox`: close open sessions with `cancelled_at` (not
`stopped_at`), then set `canceled_at`, status `cancelled`. -/
def cancelTimeboxCmd (now i : Int) (db : Db) : Db × Except String TimeboxModel :=
  let db' : Db := { db with sessions := db.sessions.map (closeCancelledRowTb now i),
                            timeboxes := db.timeboxes.map (cancelRowTb now i) }
  (db', timeboxQueryRow db' i)

/-- Effect on one stored timebox of the UPDATE of `pause_timebox`. -/
def pauseRowTb (now i : Int) (t : TimeboxRow) : TimeboxRow :=
  if t.id == i then { t with status := "paused", updated_at := now } else t

/-- `pause_timebox`: close open sessions with `stopped_at`, then set status
`paused`. -/
def pauseTimeboxCmd (now i : Int) (db : Db) : Db × Except String TimeboxModel :=
  let db' : Db := { db with sessions := db.sessions.map (closeStoppedRowTb now i),
                            timeboxes := db.timeboxes.map (pauseRowTb now i) }
  (db', timeboxQueryRow db' i)

/-- Effect on one stored timebox of the UPDATE of `delete_timebox`
(soft delete). -/
def deleteRowTb (now i : Int) (t : TimeboxRow) : TimeboxRow :=
  if t.id == i then { t with deleted_at := some now, updated_at := now } else t

/-- `delete_timebox`: set `deleted_at` (sessions untouched, status
unchanged). -/
def deleteTimeboxCmd (now i : Int) (db : Db) : Db × Except String TimeboxModel :=
  let db' : Db := { db with timeboxes := db.timeboxes.map (deleteRowTb now i) }
  (db', timeboxQueryRow db' i)

/-- Effect on one stored timebox of the UPDATE of `archive_timebox`. -/
def archiveRowTb (now i : Int) (t : TimeboxRow) : TimeboxRow :=
  if t.id == i then { t with archived_at := some now, updated_at := now } else t

/-- `archive_timebox`: set `archived_at`. -/
def archiveTimeboxCmd (now i : Int) (db : Db) : Db × Except String TimeboxModel :=
  let db' : Db := { db with timeboxes := db.timeboxes.map (archiveRowTb now i) }
  (db', timeboxQueryRow db' i)

/-- Effect on one stored timebox of the UPDATE of `unarchive_timebox`. -/
def unarchiveRowTb (now i : Int) (t : TimeboxRow) : TimeboxRow :=
  if t.id == i then { t with archived_at := none, updated_at := now } else t

/-- `unarchive_timebox`: clear `archived_at`. -/
def unarchiveTimeboxCmd (now i : Int) (db : Db) : Db × Except String TimeboxModel :=
  let db' : Db := { db with timeboxes := db.timeboxes.map (unarchiveRowTb now i) }
  (db', timeboxQueryRow db' i)

/-- Effect on one stored timebox of the UPDATE of `update_timebox`. -/
def updateRowTb (now i : Int) (newIntention : String) (newNotes : Option String)
    (newDuration : Int) (t : TimeboxRow) : TimeboxRow :=
  if t.id == i then
    { t with intention := newIntention, notes := newNotes,
             intended_duration := newDuration, updated_at := now }
  else t

/-- `update_timebox`: first reads the current row through
`Timebox::from_row` (`SELECT ... WHERE id = ?1 AND deleted_at IS NULL`);
only if that read succeeds does it stage the three diffs, write one change
log entry when any field changed, apply the new values, and re-SELECT. -/
def updateTimeboxCmd (now i : Int) (req : UpdateTimeboxReq) (db : Db) :
    Db × Except String TimeboxModel :=
  match db.timeboxes.find? (fun tb => tb.id == i && tb.deleted_at.isNone) with
  | none => (db, Except.error "QueryReturnedNoRows")
  | some currentRow =>
    match timeboxFromRow (timeboxSelectRow currentRow) with
    | none => (db, Except.error "InvalidColumnIndex(15)")
    | some current =>
      let newIntention := req.intention.getD current.intention
      let newNotes := if req.notes.isSome then req.notes else current.notes
      let newDuration := req.intended_duration.getD current.intended_duration
      let hasIntentionChange := newIntention ≠ current.intention
      let hasNotesChange := newNotes ≠ current.notes
      let hasDurationChange := newDuration ≠ current.intended_duration
      let db1 : Db :=
        if hasIntentionChange ∨ hasNotesChange ∨ hasDurationChange then
          { db with changeLog := db.changeLog ++
              [{ timebox_id := i,
                 previous_intention_title :=
                   if hasIntentionChange then some current.intention else none,
                 updated_intention_title :=
                   if hasIntentionChange then some newIntention else none,
                 previous_note_content :=
                   if hasNotesChange then current.notes else none,
                 updated_note_content :=
                   if hasNotesChange then newNotes else none,
                 previous_intended_duration :=
                   if hasDurationChange then some current.intended_duration else none,
                 new_intended_duration :=
                   if hasDurationChange then some newDuration else none,
                 updated_at := now }] }
        else db
      let db2 : Db :=
        { db1 with timeboxes :=
            db1.timeboxes.map (updateRowTb now i newIntention newNotes newDuration) }
      (db2, timeboxQueryRow db2 i)

/-- `stop_session`: close the session with this id if it is open, then the
trailing session SELECT. -/
def stopSessionCmd (now sid : Int) (db : Db) : Db × Except String SessionModel :=
  let db' : Db := { db with sessions := db.sessions.map (stopSessionRow now sid) }
  (db', sessionQueryRow db' sid)

/-- `cancel_session`: cancel the session with this id if it is open, then
the trailing session SELECT. -/
def cancelSessionCmd (now sid : Int) (db : Db) : Db × Except String SessionModel :=
  let db' : Db := { db with sessions := db.sessions.map (cancelSessionRow now sid) }
  (db', sessionQueryRow db' sid)

/-- Effect of one `UPDATE timeboxes SET display_order = ?1, updated_at = ?2
WHERE id = ?3` of the `reorder_timeboxes` loop. -/
def applyReorderItem (now : Int) (o : ReorderReq) (db : Db) : Db :=
  { db with timeboxes := db.timeboxes.map (fun t =>
      if t.id == o.id then
        { t with display_order := some o.display_order, updated_at := now }
      else t) }

/-- The `reorder_timeboxes` loop.  `conn.execute` is fallible
(`StorageError`); which call fails is environment-determined and modelled by
the predicate `failAt` on the statement index.  On the first failure the
command returns `Err` immediately — writes already made are kept, since no
transaction is opened. -/
def reorderGo (failAt : Nat → Bool) (now : Int) :
    Nat → List ReorderReq → Db → Db × Bool
  | _, [], db => (db, true)
  | k, o :: rest, db =>
    if failAt k then (db, false)
    else reorderGo failAt now (k + 1) rest (applyReorderItem now o db)

/-- `reorder_timeboxes` (returns `Ok(())` or the first item's error). -/
def reorderTimeboxesCmd (failAt : Nat → Bool) (now : Int)
    (orders : List ReorderReq) (db : Db) : Db × Bool :=
  reorderGo failAt now 0 orders db

/-- One invocation of a core transition, as the claims enumerate them. -/
inductive Op
  | create (req : CreateTimeboxReq)
  | start (i : Int)
  | pause (i : Int)
  | stop (i : Int)
  | finish (i : Int)
  | stopAfterTime (i : Int)
  | cancel (i : Int)
  | delete (i : Int)
  | archive (i : Int)
  | unarchive (i : Int)
  | update (i : Int) (req : UpdateTimeboxReq)
  | reorder (failAt : Nat → Bool) (orders : List ReorderReq)
  | stopSession (sid : Int)
  | cancelSession (sid : Int)

/-- The database-state effect of one transition (the returned `Result` is
dropped; the source opens no transaction, so the writes made before an
early `Err` return are kept). -/
def applyOp (now : Int) (op : Op) (db : Db) : Db :=
  match op with
  | .create req => (createTimeboxCmd now req db).1
  | .start i => (startTimeboxCmd now i db).1
  | .pause i => (pauseTimeboxCmd now i db).1
  | .stop i => (stopTimeboxCmd now i db).1
  | .finish i => (finishTimeboxCmd now i db).1
  | .stopAfterTime i => (stopAfterTimeCmd now i db).1
  | .cancel i => (cancelTimeboxCmd now i db).1
  | .delete i => (deleteTimeboxCmd now i db).1
  | .archive i => (archiveTimeboxCmd now i db).1
  | .unarchive i => (unarchiveTimeboxCmd now i db).1
  | .update i req => (updateTimeboxCmd now i req db).1
  | .reorder failAt orders => (reorderTimeboxesCmd failAt now orders db).1
  | .stopSession sid => (stopSessionCmd now sid db).1
  | .cancelSession sid => (cancelSessionCmd now sid db).1

/-- Run a timed sequence of transitions. -/
def execOps (ops : List (Int × Op)) (db : Db) : Db :=
  ops.foldl (fun d p => applyOp p.1 p.2 d) db

/-- The open sessions a timebox currently has. -/
def openSessions (db : Db) (tid : Int) : List SessionRow :=
  db.sessions.filter (fun s => s.timebox_id == tid && isOpenSession s)

/-- `date(ts)` of the model clock: whole days. -/
def dayOf (t : Int) : Int := t / 86400

/-- The SQL aggregate
`SELECT COALESCE(SUM((julianday(COALESCE(stopped_at, datetime('now'))) -
julianday(started_at)) * 86400), 0) FROM sessions WHERE timebox_id = ?1 AND
cancelled_at IS NULL` of the three view queries, on the model clock. -/
def actualDuration (now : Int) (sessions : List SessionRow) (tid : Int) : Int :=
  ((sessions.filter (fun s => s.timebox_id == tid && s.cancelled_at.isNone)).map
    (fun s => s.stopped_at.getD now - s.started_at)).sum

/-- The spec's own words for the derived duration: the sum, over exactly
those of the timebox's sessions whose `cancelled_at` is null, of
(`stopped_at`, or the current clock time if `stopped_at` is null, minus
`started_at`). -/
def specActualDuration (now : Int) (sessions : List SessionRow) (tid : Int) : Int :=
  (((sessions.filter (fun s => s.timebox_id == tid)).filter
      (fun s => s.cancelled_at == none)).map
    (fun s => s.stopped_at.getD now - s.started_at)).sum

/-- Insertion into a list sorted by `le` (model of an ORDER BY). -/
def insertLe {α : Type} (le : α → α → Bool) (a : α) : List α → List α
  | [] => [a]
  | b :: l => if le a b then a :: b :: l else b :: insertLe le a l

/-- Insertion sort by `le` (model of an ORDER BY). -/
def sortLe {α : Type} (le : α → α → Bool) : List α → List α
  | [] => []
  | a :: l => insertLe le a (sortLe le l)

/-- `ORDER BY started_at DESC` of the session SELECTs. -/
def sessionDescLe (a b : SessionRow) : Bool := decide (b.started_at ≤ a.started_at)

/-- `get_sessions_for_timebox`: all sessions of the timebox, newest start
first, decoded through `Session::from_row`; decode failures are dropped by
`filter_map(|r| r.ok())`. -/
def getSessionsForTimebox (db : Db) (tid : Int) : List SessionModel :=
  (((sortLe sessionDescLe (db.sessions.filter (fun s => s.timebox_id == tid))).map
      sessionSelectRow).filterMap sessionFromRow)

/-- The `TimeboxWithSessions` payload of the three view commands. -/
structure TimeboxWithSessions where
  timebox : TimeboxModel
  sessions : List SessionModel
  actual_duration : Int
deriving DecidableEq, Repr

/-- The WHERE clause of `get_today_timeboxes`. -/
def todayFilter (now : Int) (tb : TimeboxRow) : Bool :=
  dayOf tb.created_at == dayOf now && tb.deleted_at.isNone && tb.archived_at.isNone

/-- `ORDER BY COALESCE(display_order, 999999), created_at DESC`. -/
def todayLe (a b : TimeboxRow) : Bool :=
  decide (a.display_order.getD 999999 < b.display_order.getD 999999) ||
    (a.display_order.getD 999999 == b.display_order.getD 999999 &&
      decide (b.created_at ≤ a.created_at))

/-- The WHERE clause of `get_active_timeboxes` — also the "active view
predicate" of the spec: started, with `completed_at`,
`after_time_stopped_at`, `canceled_at`, `deleted_at` all null. -/
def activeFilter (tb : TimeboxRow) : Bool :=
  tb.started_at.isSome && tb.completed_at.isNone &&
    tb.after_time_stopped_at.isNone && tb.canceled_at.isNone && tb.deleted_at.isNone

/-- `ORDER BY created_at DESC`. -/
def activeLe (a b : TimeboxRow) : Bool := decide (b.created_at ≤ a.created_at)

/-- The WHERE clause of `get_archived_timeboxes`. -/
def archivedFilter (now : Int) (tb : TimeboxRow) : Bool :=
  dayOf tb.created_at == dayOf now && tb.deleted_at.isNone && tb.archived_at.isSome

/-- `ORDER BY archived_at DESC`. -/
def archivedLe (a b : TimeboxRow) : Bool :=
  decide (b.archived_at.getD 0 ≤ a.archived_at.getD 0)

/-- The per-timebox loop body shared by the three view commands. -/
def viewEntry (now : Int) (db : Db) (t : TimeboxModel) : TimeboxWithSessions :=
  { timebox := t, sessions := getSessionsForTimebox db t.id,
    actual_duration := actualDuration now db.sessions t.id }

/-- `get_today_timeboxes`: decode the selected rows through
`Timebox::from_row` (failures dropped by `filter_map(|r| r.ok())`), then
attach sessions and the duration aggregate to each decoded timebox. -/
def getTodayTimeboxes (now : Int) (db : Db) : List TimeboxWithSessions :=
  (((sortLe todayLe (db.timeboxes.filter (todayFilter now))).map
      timeboxSelectRow).filterMap timeboxFromRow).map (viewEntry now db)

/-- `get_active_timeboxes`. -/
def getActiveTimeboxes (now : Int) (db : Db) : List TimeboxWithSessions :=
  (((sortLe activeLe (db.timeboxes.filter activeFilter)).map
      timeboxSelectRow).filterMap timeboxFromRow).map (viewEntry now db)

/-- `get_archived_timeboxes`. -/
def getArchivedTimeboxes (now : Int) (db : Db) : List TimeboxWithSessions :=
  (((sortLe archivedLe (db.timeboxes.filter (archivedFilter now))).map
      timeboxSelectRow).filterMap timeboxFromRow).map (viewEntry now db)

theorem bind_eq_none_of {α β : Type} {o : Option α} {f : α → Option β}
    (h : ∀ a, f a = none) : o >>= f = none := by
  cases o with
  | none => rfl
  | some a => exact h a

theorem rowGetOptInt_eq_none {row : List SqlValue} {i : Nat}
    (h : row.length ≤ i) : rowGetOptInt row i = none := by
  unfold rowGetOptInt
  rw [List.get?_eq_none.mpr h]

theorem timeboxRowPart2_eq_none {row : List SqlValue}
    (h : row.length ≤ 15) : timeboxRowPart2 row = none := by
  have h15 : rowGetOptInt row 15 = none := rowGetOptInt_eq_none h
  unfold timeboxRowPart2
  apply bind_eq_none_of; intro a9
  apply bind_eq_none_of; intro a10
  apply bind_eq_none_of; intro a11
  apply bind_eq_none_of; intro a12
  apply bind_eq_none_of; intro a13
  apply bind_eq_none_of; intro a14
  rw [h15]; rfl

theorem timeboxFromRow_eq_none {row : List SqlValue}
    (h : row.length ≤ 15) : timeboxFromRow row = none := by
  unfold timeboxFromRow
  apply bind_eq_none_of; intro x
  obtain ⟨s, i, it, no, d, c, u, st, co⟩ := x
  rw [timeboxRowPart2_eq_none h]
  rfl

theorem timeboxSelectRow_length (tb : TimeboxRow) :
    (timeboxSelectRow tb).length = 15 := rfl

theorem timeboxSelectRow_decode (tb : TimeboxRow) :
    timeboxFromRow (timeboxSelectRow tb) = none :=
  timeboxFromRow_eq_none (by rw [timeboxSelectRow_length])

theorem sessionSelectRow_decode (s : SessionRow) :
    sessionFromRow (sessionSelectRow s) = none := by
  cases h1 : s.stopped_at <;> cases h2 : s.cancelled_at <;>
    simp [sessionFromRow, sessionSelectRow, rowGetInt, rowGetText,
          rowGetOptText, sqlOfOptTs, h1, h2, List.get?]

theorem timeboxQueryRow_isErr (db : Db) (i : Int) :
    exceptIsError (timeboxQueryRow db i) = true := by
  unfold timeboxQueryRow
  cases db.timeboxes.find? (fun tb => tb.id == i) with
  | none => rfl
  | some tb => simp [timeboxSelectRow_decode, exceptIsError]

theorem sessionQueryRow_isErr (db : Db) (sid : Int) :
    exceptIsError (sessionQueryRow db sid) = true := by
  unfold sessionQueryRow
  cases db.sessions.find? (fun s => s.id == sid) with
  | none => rfl
  | some s => simp [sessionSelectRow_decode, exceptIsError]

theorem decodeTimeboxRows_nil (l : List TimeboxRow) :
    (l.map timeboxSelectRow).filterMap timeboxFromRow = [] := by
  induction l with
  | nil => rfl
  | cons a t ih => simp [List.filterMap_cons, timeboxSelectRow_decode, ih]

theorem decodeSessionRows_nil (l : List SessionRow) :
    (l.map sessionSelectRow).filterMap sessionFromRow = [] := by
  induction l with
  | nil => rfl
  | cons a t ih => simp [List.filterMap_cons, sessionSelectRow_decode, ih]

theorem updateTimeboxCmd_eq (now i : Int) (req : UpdateTimeboxReq) (db : Db) :
    (updateTimeboxCmd now i req db).1 = db ∧
      exceptIsError (updateTimeboxCmd now i req db).2 = true := by
  unfold updateTimeboxCmd
  cases db.timeboxes.find? (fun tb => tb.id == i && tb.deleted_at.isNone) with
  | none => exact ⟨rfl, rfl⟩
  | some currentRow => simp [timeboxSelectRow_decode, exceptIsError]

theorem length_filter_map_le {α : Type} (p : α → Bool) (f : α → α) (l : List α)
    (h : ∀ a, p (f a) = true → f a = a) :
    ((l.map f).filter p).length ≤ (l.filter p).length := by
  induction l with
  | nil => simp
  | cons a t ih =>
    simp only [List.map_cons, List.filter_cons]
    by_cases hf : p (f a) = true
    · rw [if_pos hf, if_pos (by rw [← h a hf]; exact hf)]
      simpa using ih
    · rw [if_neg hf]
      by_cases ha : p a = true
      · rw [if_pos ha]
        exact Nat.le_succ_of_le ih
      · rw [if_neg ha]
        exact ih

theorem map_eq_self {α : Type} (l : List α) (f : α → α)
    (h : ∀ a ∈ l, f a = a) : l.map f = l := by
  induction l with
  | nil => rfl
  | cons a t ih =>
    simp only [List.map_cons]
    rw [h a (List.mem_cons_self a t), ih (fun b hb => h b (List.mem_cons_of_mem a hb))]

theorem closeStoppedRowTb_open (now tid : Int) (s : SessionRow) :
    isOpenSession (closeStoppedRowTb now tid s) = true → closeStoppedRowTb now tid s = s := by
  unfold closeStoppedRowTb
  split
  · intro h; exfalso; simp [isOpenSession] at h
  · intro _; rfl

theorem closeCancelledRowTb_open (now tid : Int) (s : SessionRow) :
    isOpenSession (closeCancelledRowTb now tid s) = true → closeCancelledRowTb now tid s = s := by
  unfold closeCancelledRowTb
  split
  · intro h; exfalso; simp [isOpenSession] at h
  · intro _; rfl

theorem stopSessionRow_open (now sid : Int) (s : SessionRow) :
    isOpenSession (stopSessionRow now sid s) = true → stopSessionRow now sid s = s := by
  unfold stopSessionRow
  split
  · intro h; exfalso; simp [isOpenSession] at h
  · intro _; rfl

theorem cancelSessionRow_open (now sid : Int) (s : SessionRow) :
    isOpenSession (cancelSessionRow now sid s) = true → cancelSessionRow now sid s = s := by
  unfold cancelSessionRow
  split
  · intro h; exfalso; simp [isOpenSession] at h
  · intro _; rfl

theorem openFilter_map_le (tid : Int) (l : List SessionRow) (f : SessionRow → SessionRow)
    (hf : ∀ s, isOpenSession (f s) = true → f s = s) :
    ((l.map f).filter (fun s => s.timebox_id == tid && isOpenSession s)).length ≤
      (l.filter (fun s => s.timebox_id == tid && isOpenSession s)).length := by
  apply length_filter_map_le
  intro a ha
  exact hf a (Bool.and_eq_true _ _ |>.mp ha).2

theorem reorderGo_fst_sessions (failAt : Nat → Bool) (now : Int) :
    ∀ (orders : List ReorderReq) (k : Nat) (db : Db),
      (reorderGo failAt now k orders db).1.sessions = db.sessions := by
  intro orders
  induction orders with
  | nil => intro k db; rfl
  | cons o rest ih =>
    intro k db
    unfold reorderGo
    by_cases hk : failAt k = true
    · rw [if_pos hk]
    · rw [if_neg hk]
      rw [ih (k + 1) (applyReorderItem now o db)]
      rfl

theorem isOpenSession_eq_false (s : SessionRow)
    (h : s.stopped_at.isSome = true ∨ s.cancelled_at.isSome = true) :
    isOpenSession s = false := by
  rcases h with h | h
  · unfold isOpenSession
    rw [Option.isSome_iff_exists] at h
    obtain ⟨v, hv⟩ := h
    rw [hv]
    rfl
  · unfold isOpenSession
    rw [Option.isSome_iff_exists] at h
    obtain ⟨v, hv⟩ := h
    rw [hv]
    simp

theorem closeStoppedRowTb_not_open (now tid : Int) (s : SessionRow)
    (h : isOpenSession s = false) : closeStoppedRowTb now tid s = s := by
  unfold closeStoppedRowTb
  rw [if_neg]
  simp [h]

theorem closeCancelledRowTb_not_open (now tid : Int) (s : SessionRow)
    (h : isOpenSession s = false) : closeCancelledRowTb now tid s = s := by
  unfold closeCancelledRowTb
  rw [if_neg]
  simp [h]

theorem stopSessionRow_not_open (now sid : Int) (s : SessionRow)
    (h : isOpenSession s = false) : stopSessionRow now sid s = s := by
  unfold stopSessionRow
  rw [if_neg]
  simp [h]

theorem cancelSessionRow_not_open (now sid : Int) (s : SessionRow)
    (h : isOpenSession s = false) : cancelSessionRow now sid s = s := by
  unfold cancelSessionRow
  rw [if_neg]
  simp [h]

theorem startTimeboxCmd_sessions (now i : Int) (db : Db) :
    (startTimeboxCmd now i db).1.sessions = db.sessions ∨
    (startTimeboxCmd now i db).1.sessions =
      db.sessions ++ [{ id := db.nextSessionId, timebox_id := i, started_at := now,
                        stopped_at := none, cancelled_at := none }] := by
  unfold startTimeboxCmd
  cases db.timeboxes.find? (fun tb => tb.id == i && tb.deleted_at.isNone) with
  | none => left; rfl
  | some tb =>
    right
    dsimp only
    split <;> rfl

/-- A sample create request used by the concrete runs below. -/
def reqFocus : CreateTimeboxReq :=
  { intention := "focus", intended_duration := 1500, notes := none,
    linear_project_id := none }

/-- create, then start, then start again on the same timebox. -/
def dbC3 : Db :=
  execOps [(0, Op.create reqFocus), (1, Op.start 1), (2, Op.start 1)] emptyDb

/-- C3 counterexample: starting a timebox that already has an open session
inserts a second open session — after create, start, start the timebox has
two open sessions, violating the claimed invariant. -/
theorem C3_counterexample : (openSessions dbC3 1).length = 2 ∧
    ¬ ((openSessions dbC3 1).length ≤ 1) := by decide

/-- C3 (amended): every transition except an unguarded start preserves
"at most one open session per timebox"; `start` preserves it exactly when
the started timebox has no open session (the source performs no such check,
so the caller must guarantee it). -/
theorem C3_at_most_one_open_session (now : Int) (op : Op) (db : Db)
    (hInv : ∀ t : Int, (openSessions db t).length ≤ 1)
    (hStart : ∀ i : Int, op = Op.start i → openSessions db i = []) :
    ∀ t : Int, (openSessions (applyOp now op db) t).length ≤ 1 := by
  intro t
  cases op with
  | create req => exact hInv t
  | update i req =>
    have h := (updateTimeboxCmd_eq now i req db).1
    simp only [applyOp]
    rw [h]
    exact hInv t
  | start i =>
    have hOpen := hStart i rfl
    rcases startTimeboxCmd_sessions now i db with h | h <;>
      simp only [applyOp] <;> unfold openSessions at hOpen ⊢ <;> rw [h]
    · exact hInv t
    · rw [List.filter_append]
      by_cases hit : i = t
      · subst hit
        rw [hOpen]
        simp [isOpenSession]
      · have hne : (i == t) = false := by simp [hit]
        rw [show List.filter (fun s => s.timebox_id == t && isOpenSession s)
              [({ id := db.nextSessionId, timebox_id := i, started_at := now,
                  stopped_at := none, cancelled_at := none } : SessionRow)] = [] from by
            simp [List.filter_cons, hne]]
        rw [List.append_nil]
        exact hInv t
  | pause i =>
    exact Nat.le_trans (openFilter_map_le t db.sessions _ (closeStoppedRowTb_open now i)) (hInv t)
  | stop i =>
    exact Nat.le_trans (openFilter_map_le t db.sessions _ (closeStoppedRowTb_open now i)) (hInv t)
  | finish i =>
    exact Nat.le_trans (openFilter_map_le t db.sessions _ (closeStoppedRowTb_open now i)) (hInv t)
  | stopAfterTime i =>
    exact Nat.le_trans (openFilter_map_le t db.sessions _ (closeStoppedRowTb_open now i)) (hInv t)
  | cancel i =>
    exact Nat.le_trans (openFilter_map_le t db.sessions _ (closeCancelledRowTb_open now i)) (hInv t)
  | delete i => exact hInv t
  | archive i => exact hInv t
  | unarchive i => exact hInv t
  | reorder failAt orders =>
    unfold openSessions
    rw [show (applyOp now (Op.reorder failAt orders) db).sessions = db.sessions from
          reorderGo_fst_sessions failAt now orders 0 db]
    exact hInv t
  | stopSession sid =>
    exact Nat.le_trans (openFilter_map_le t db.sessions _ (stopSessionRow_open now sid)) (hInv t)
  | cancelSession sid =>
    exact Nat.le_trans (openFilter_map_le t db.sessions _ (cancelSessionRow_open now sid)) (hInv t)

/-- create then start: one open session. -/
def dbW3 : Db := execOps [(0, Op.create reqFocus), (1, Op.start 1)] emptyDb

/-- C3 witness: the invariant theorem applied to a concrete database with
one open session and a concrete stop transition. -/
theorem C3_witness :
    (openSessions (applyOp 9 (Op.stop 1) dbW3) 1).length ≤ 1 :=
  C3_at_most_one_open_session 9 (Op.stop 1) dbW3
    (fun _ => Nat.le_trans (List.length_filter_le _ _) (by decide))
    (fun _ h => Op.noConfusion h) 1

/-- C1: `TIMEBOX_SELECT_COLUMNS` names exactly 15 columns, all of which the
migrations create, and no `linear_*` column exists on `timeboxes`; hence
`Timebox::from_row` (which reads indices 15, 16, 17) fails on every selected
row, every single-timebox command returns `Err`, and the three list queries,
which drop decode failures, always return the empty list. -/
theorem C1_from_row_mismatch :
    timeboxSelectColumns.length = 15
  ∧ (∀ c ∈ timeboxSelectColumns, c ∈ timeboxesTableColumns)
  ∧ "linear_project_id" ∉ timeboxesTableColumns
  ∧ "linear_issue_id" ∉ timeboxesTableColumns
  ∧ "linear_issue_url" ∉ timeboxesTableColumns
  ∧ (∀ row : List SqlValue, row.length = timeboxSelectColumns.length →
       timeboxFromRow row = none)
  ∧ (∀ (now : Int) (req : CreateTimeboxReq) (db : Db),
       exceptIsError (createTimeboxCmd now req db).2 = true)
  ∧ (∀ (now i : Int) (req : UpdateTimeboxReq) (db : Db),
       exceptIsError (updateTimeboxCmd now i req db).2 = true)
  ∧ (∀ (now i : Int) (db : Db), exceptIsError (startTimeboxCmd now i db).2 = true)
  ∧ (∀ (now i : Int) (db : Db), exceptIsError (stopTimeboxCmd now i db).2 = true)
  ∧ (∀ (now i : Int) (db : Db), exceptIsError (finishTimeboxCmd now i db).2 = true)
  ∧ (∀ (now i : Int) (db : Db), exceptIsError (stopAfterTimeCmd now i db).2 = true)
  ∧ (∀ (now i : Int) (db : Db), exceptIsError (cancelTimeboxCmd now i db).2 = true)
  ∧ (∀ (now i : Int) (db : Db), exceptIsError (pauseTimeboxCmd now i db).2 = true)
  ∧ (∀ (now i : Int) (db : Db), exceptIsError (deleteTimeboxCmd now i db).2 = true)
  ∧ (∀ (now i : Int) (db : Db), exceptIsError (archiveTimeboxCmd now i db).2 = true)
  ∧ (∀ (now i : Int) (db : Db), exceptIsError (unarchiveTimeboxCmd now i db).2 = true)
  ∧ (∀ (now : Int) (db : Db), getTodayTimeboxes now db = [])
  ∧ (∀ (now : Int) (db : Db), getActiveTimeboxes now db = [])
  ∧ (∀ (now : Int) (db : Db), getArchivedTimeboxes now db = []) := by
  refine ⟨by decide, by decide, by decide, by decide, by decide, ?_, ?_, ?_, ?_, ?_, ?_, ?_, ?_, ?_, ?_, ?_, ?_, ?_, ?_, ?_⟩
  · intro row h
    exact timeboxFromRow_eq_none (Nat.le_of_eq h)
  · intro now req db
    exact timeboxQueryRow_isErr _ _
  · intro now i req db
    exact (updateTimeboxCmd_eq now i req db).2
  · intro now i db
    unfold startTimeboxCmd
    cases db.timeboxes.find? (fun tb => tb.id == i && tb.deleted_at.isNone) with
    | none => rfl
    | some tb => exact timeboxQueryRow_isErr _ _
  · intro now i db
    exact timeboxQueryRow_isErr _ _
  · intro now i db
    exact timeboxQueryRow_isErr _ _
  · intro now i db
    exact timeboxQueryRow_isErr _ _
  · intro now i db
    exact timeboxQueryRow_isErr _ _
  · intro now i db
    exact timeboxQueryRow_isErr _ _
  · intro now i db
    exact timeboxQueryRow_isErr _ _
  · intro now i db
    exact timeboxQueryRow_isErr _ _
  · intro now i db
    exact timeboxQueryRow_isErr _ _
  · intro now db
    unfold getTodayTimeboxes
    rw [decodeTimeboxRows_nil]
    rfl
  · intro now db
    unfold getActiveTimeboxes
    rw [decodeTimeboxRows_nil]
    rfl
  · intro now db
    unfold getArchivedTimeboxes
    rw [decodeTimeboxRows_nil]
    rfl

/-- Filtering by owner and then by non-cancelled equals the single SQL
WHERE clause. -/
theorem filter_owner_noncancelled (tid : Int) (l : List SessionRow) :
    (l.filter (fun s => s.timebox_id == tid)).filter (fun s => s.cancelled_at == none) =
      l.filter (fun s => s.timebox_id == tid && s.cancelled_at.isNone) := by
  rw [List.filter_filter]
  apply List.filter_congr
  intro a _
  cases a.cancelled_at <;> simp

/-- C2: the duration aggregate equals the spec's sum over exactly the
non-cancelled sessions of the timebox, an open session counting up to the
read clock; a cancelled session contributes nothing; with no non-cancelled
sessions the value is 0. -/
theorem C2_actual_duration (now tid : Int) (sessions : List SessionRow) :
    actualDuration now sessions tid = specActualDuration now sessions tid
  ∧ (∀ s : SessionRow, s.cancelled_at.isSome = true →
       actualDuration now (s :: sessions) tid = actualDuration now sessions tid)
  ∧ ((sessions.filter (fun s => s.timebox_id == tid && s.cancelled_at.isNone)) = [] →
       actualDuration now sessions tid = 0) := by
  refine ⟨?_, ?_, ?_⟩
  · unfold actualDuration specActualDuration
    rw [filter_owner_noncancelled]
  · intro s h
    have hn : s.cancelled_at.isNone = false := by
      cases hc : s.cancelled_at
      · rw [hc] at h; exact absurd h (by simp)
      · rfl
    unfold actualDuration
    rw [List.filter_cons, if_neg (by simp [hn])]
  · intro h
    unfold actualDuration
    rw [h]
    rfl

/-- A concrete stored timebox used by the C1 witness. -/
def tbW1 : TimeboxRow :=
  { id := 1, intention := "write", notes := none, intended_duration := 1800,
    status := "not_started", created_at := 0, updated_at := 0, started_at := none,
    completed_at := none, after_time_stopped_at := none, deleted_at := none,
    canceled_at := none, display_order := none, archived_at := none,
    finished_at := none }

/-- One timebox created at clock 0. -/
def dbW1 : Db := execOps [(0, Op.create reqFocus)] emptyDb

/-- C1 witness: the decode failure and the empty today view evaluated on a
concrete row and a concrete one-timebox database. -/
theorem C1_witness :
    timeboxFromRow (timeboxSelectRow tbW1) = none ∧ getTodayTimeboxes 5 dbW1 = [] := by
  obtain ⟨-, -, -, -, -, hrow, -, -, -, -, -, -, -, -, -, -, -, htoday, -, -⟩ :=
    C1_from_row_mismatch
  exact ⟨hrow _ (by decide), htoday 5 dbW1⟩

/-- The spec's duration example on the model clock: a session 600..900
(five minutes), an open session started at 1200, read at 1320. -/
def exSessions : List SessionRow :=
  [{ id := 1, timebox_id := 1, started_at := 600, stopped_at := some 900, cancelled_at := none },
   { id := 2, timebox_id := 1, started_at := 1200, stopped_at := none, cancelled_at := none }]

/-- A cancelled session of the same timebox. -/
def exCancelled : SessionRow :=
  { id := 3, timebox_id := 1, started_at := 0, stopped_at := none, cancelled_at := some 10 }

/-- C2 witness: the aggregate on the spec's example equals 420 seconds and
ignores a cancelled session. -/
theorem C2_witness :
    actualDuration 1320 exSessions 1 = specActualDuration 1320 exSessions 1
  ∧ actualDuration 1320 (exCancelled :: exSessions) 1 = actualDuration 1320 exSessions 1
  ∧ actualDuration 1320 exSessions 1 = 420 := by
  refine ⟨(C2_actual_duration 1320 1 exSessions).1, ?_, by decide⟩
  exact (C2_actual_duration 1320 1 exSessions).2.1 exCancelled (by decide)

def dbC4 : Db :=
  execOps [(0, Op.create reqFocus), (1, Op.start 1), (2, Op.cancel 1), (3, Op.start 1)] emptyDb

/-- C4 counterexample: create, start, cancel, start.  The second start
leaves `started_at` at the first start, sets status `in_progress`, clears
`completed_at` and opens a session — yet the timebox does not satisfy the
active-view predicate, because `canceled_at` (set by cancel) is not cleared
by start. -/
theorem C4_counterexample :
    dbC4.timeboxes.map
        (fun t => (t.started_at, t.status, t.completed_at, t.canceled_at, activeFilter t))
      = [(some 1, "in_progress", none, some 2, false)]
  ∧ (openSessions dbC4 1).length = 1 := by decide

/-- C4 (amended): on an existing non-deleted timebox, start inserts one
open session with `started_at = now`; if `started_at` was null it is set
(first start), otherwise it is left unchanged while status becomes
`in_progress` and `completed_at` is cleared; the restarted row satisfies
the active view's filter iff `after_time_stopped_at`, `canceled_at` and
`deleted_at` were null (as after create/start/stop histories) — the
`canceled_at`/`after_time_stopped_at` markers are not cleared by start,
and the active-view command itself returns an empty list (see C1). -/
theorem C4_start_restart (now i : Int) (db : Db) (tb : TimeboxRow)
    (hfind : db.timeboxes.find? (fun t => t.id == i && t.deleted_at.isNone) = some tb) :
    ((startTimeboxCmd now i db).1.sessions =
       db.sessions ++ [{ id := db.nextSessionId, timebox_id := i, started_at := now,
                         stopped_at := none, cancelled_at := none }])
  ∧ (tb.started_at = none →
       (startTimeboxCmd now i db).1.timeboxes = db.timeboxes.map (startFirstRow now i))
  ∧ (tb.started_at.isSome = true →
       (startTimeboxCmd now i db).1.timeboxes = db.timeboxes.map (startRestartRow now i))
  ∧ (∀ t : TimeboxRow, t.id = i →
       (startRestartRow now i t).started_at = t.started_at
     ∧ (startRestartRow now i t).status = "in_progress"
     ∧ (startRestartRow now i t).completed_at = none
     ∧ activeFilter (startRestartRow now i t) =
         (t.started_at.isSome && t.after_time_stopped_at.isNone &&
          t.canceled_at.isNone && t.deleted_at.isNone)) := by
  refine ⟨?_, ?_, ?_, ?_⟩
  · unfold startTimeboxCmd
    rw [hfind]
    dsimp only
    split <;> rfl
  · intro h
    unfold startTimeboxCmd
    rw [hfind]
    dsimp only
    rw [if_pos (by rw [h]; rfl)]
  · intro h
    unfold startTimeboxCmd
    rw [hfind]
    dsimp only
    rw [if_neg (by rw [Option.isNone_iff_eq_none]; intro hc; rw [hc] at h; exact absurd h (by simp))]
  · intro t ht
    unfold startRestartRow
    rw [if_pos (by exact beq_iff_eq.mpr ht)]
    refine ⟨rfl, rfl, rfl, ?_⟩
    simp [activeFilter]

/-- The stored row of `dbW4`'s timebox after create, start, stop. -/
def tbW4 : TimeboxRow :=
  { id := 1, intention := "focus", notes := none, intended_duration := 1500,
    status := "stopped", created_at := 0, updated_at := 2, started_at := some 1,
    completed_at := some 2, after_time_stopped_at := none, deleted_at := none,
    canceled_at := none, display_order := none, archived_at := none,
    finished_at := none }

/-- create, start, stop: a stopped timebox ready for restart. -/
def dbW4 : Db := execOps [(0, Op.create reqFocus), (1, Op.start 1), (2, Op.stop 1)] emptyDb

/-- C4 witness: restart of a concretely stopped timebox appends one open
session, applies the restart row update, and the restarted row passes the
active filter. -/
theorem C4_witness :
    ((startTimeboxCmd 3 1 dbW4).1.sessions =
       dbW4.sessions ++ [{ id := dbW4.nextSessionId, timebox_id := 1, started_at := 3,
                           stopped_at := none, cancelled_at := none }])
  ∧ (startTimeboxCmd 3 1 dbW4).1.timeboxes = dbW4.timeboxes.map (startRestartRow 3 1)
  ∧ activeFilter (startRestartRow 3 1 tbW4) = true := by
  obtain ⟨hs, -, hr, hper⟩ := C4_start_restart 3 1 dbW4 tbW4 (by decide)
  refine ⟨hs, hr (by decide), ?_⟩
  rw [(hper tbW4 rfl).2.2.2]
  decide

def dbC5 : Db := execOps [(0, Op.create reqFocus)] emptyDb

def reqNewIntention : UpdateTimeboxReq :=
  { intention := some "new plan", notes := none, intended_duration := none }

/-- C5 counterexample: an update that changes the intention of an existing
timebox writes no change-log entry and applies nothing — `update_timebox`
fails while decoding the current row, before any write. -/
theorem C5_counterexample :
    (updateTimeboxCmd 1 1 reqNewIntention dbC5).1 = dbC5
  ∧ exceptIsError (updateTimeboxCmd 1 1 reqNewIntention dbC5).2 = true
  ∧ dbC5.changeLog = []
  ∧ dbC5.timeboxes.map (fun t => t.intention) = ["focus"] := by decide

/-- C5 (amended): for every timebox and request, `update_timebox` returns
`Err` at the read of the current row (`Timebox::from_row` reads column
index 15 of the 15-column SELECT) and performs no write: the change log and
the timeboxes table are untouched.  The staged-diff/paired-null logic in
the source is unreachable. -/
theorem C5_update_never_writes (now i : Int) (req : UpdateTimeboxReq) (db : Db) :
    (updateTimeboxCmd now i req db).1 = db
  ∧ (updateTimeboxCmd now i req db).1.changeLog = db.changeLog
  ∧ exceptIsError (updateTimeboxCmd now i req db).2 = true :=
  ⟨(updateTimeboxCmd_eq now i req db).1,
   by rw [(updateTimeboxCmd_eq now i req db).1],
   (updateTimeboxCmd_eq now i req db).2⟩

def reqInvalid : CreateTimeboxReq :=
  { intention := "", intended_duration := -5, notes := none, linear_project_id := none }

/-- C6 counterexample: a create request with empty intention and negative
duration succeeds in inserting a row (no ValidationError path exists), and
a well-formed create request returns `Err` rather than the new timebox. -/
theorem C6_counterexample :
    (createTimeboxCmd 0 reqInvalid emptyDb).1.timeboxes.map
        (fun t => (t.intention, t.intended_duration, t.status)) = [("", -5, "not_started")]
  ∧ exceptIsError (createTimeboxCmd 0 reqFocus emptyDb).2 = true := by
  refine ⟨by decide, ?_⟩
  unfold createTimeboxCmd
  dsimp only
  exact timeboxQueryRow_isErr _ _

/-- C6 (amended): `create_timebox` performs no input validation: every
request — empty intention and non-positive duration included — appends one
row in status `not_started` with the request's fields and creates no
session; the command's returned `Result` is `Err` for every request because
the trailing row decode fails (see C1). -/
theorem C6_create_no_validation (now : Int) (req : CreateTimeboxReq) (db : Db) :
    (createTimeboxCmd now req db).1.timeboxes =
      db.timeboxes ++ [{ id := db.nextTimeboxId, intention := req.intention,
                         notes := req.notes, intended_duration := req.intended_duration,
                         status := "not_started", created_at := now, updated_at := now,
                         started_at := none, completed_at := none,
                         after_time_stopped_at := none, deleted_at := none,
                         canceled_at := none, display_order := none,
                         archived_at := none, finished_at := none }]
  ∧ (createTimeboxCmd now req db).1.sessions = db.sessions
  ∧ exceptIsError (createTimeboxCmd now req db).2 = true := by
  refine ⟨rfl, rfl, ?_⟩
  unfold createTimeboxCmd
  dsimp only
  exact timeboxQueryRow_isErr _ _

theorem reorderGo_ok (failAt : Nat → Bool) (now : Int) :
    ∀ (orders : List ReorderReq) (k : Nat) (db : Db),
      (∀ j, j < orders.length → failAt (k + j) = false) →
      reorderGo failAt now k orders db =
        (orders.foldl (fun d o => applyReorderItem now o d) db, true) := by
  intro orders
  induction orders with
  | nil => intro k db h; rfl
  | cons o rest ih =>
    intro k db h
    unfold reorderGo
    rw [if_neg (by have h0 := h 0 (Nat.succ_pos rest.length); rw [Nat.add_zero] at h0; simp [h0])]
    rw [ih (k + 1) (applyReorderItem now o db) (fun j hj => by
      have hj1 := h (j + 1) (Nat.succ_lt_succ hj)
      rwa [show k + (j + 1) = k + 1 + j by omega] at hj1)]
    rfl

theorem reorderGo_fail (failAt : Nat → Bool) (now : Int) :
    ∀ (orders : List ReorderReq) (k i : Nat) (db : Db),
      k < orders.length → (∀ j, j < k → failAt (i + j) = false) → failAt (i + k) = true →
      reorderGo failAt now i orders db =
        ((orders.take k).foldl (fun d o => applyReorderItem now o d) db, false) := by
  intro orders
  induction orders with
  | nil => intro k i db hk _ _; exact absurd hk (by simp)
  | cons o rest ih =>
    intro k i db hk hpre hfail
    cases k with
    | zero =>
      unfold reorderGo
      rw [if_pos (by rwa [Nat.add_zero] at hfail)]
      rfl
    | succ k' =>
      unfold reorderGo
      rw [if_neg (by have h0 := hpre 0 (Nat.succ_pos k'); rw [Nat.add_zero] at h0; simp [h0])]
      rw [ih k' (i + 1) (applyReorderItem now o db) (Nat.lt_of_succ_lt_succ hk)
            (fun j hj => by
              have hj1 := hpre (j + 1) (Nat.succ_lt_succ hj)
              rwa [show i + (j + 1) = i + 1 + j by omega] at hj1)
            (by rwa [show i + 1 + k' = i + (k' + 1) by omega])]
      rfl

/-- C7 (amended): `reorder_timeboxes` applies the batch sequentially with
no transaction: if no statement fails, every pair is applied; if statement
k is the first to fail, exactly the first k items remain applied and the
command returns `Err` — partial application is observable. -/
theorem C7_reorder_not_atomic (failAt : Nat → Bool) (now : Int) (orders : List ReorderReq) (db : Db) :
    ((∀ j, j < orders.length → failAt j = false) →
       reorderTimeboxesCmd failAt now orders db =
         (orders.foldl (fun d o => applyReorderItem now o d) db, true))
  ∧ (∀ k, k < orders.length → (∀ j, j < k → failAt j = false) → failAt k = true →
       reorderTimeboxesCmd failAt now orders db =
         ((orders.take k).foldl (fun d o => applyReorderItem now o d) db, false)) := by
  constructor
  · intro h
    unfold reorderTimeboxesCmd
    exact reorderGo_ok failAt now orders 0 db (fun j hj => by simpa using h j hj)
  · intro k hk hpre hfail
    unfold reorderTimeboxesCmd
    exact reorderGo_fail failAt now orders k 0 db hk
      (fun j hj => by simpa using hpre j hj) (by simpa using hfail)

def dbTwo : Db := execOps [(0, Op.create reqFocus), (0, Op.create reqFocus)] emptyDb

def failSecond : Nat → Bool := fun k => k == 1

def ordersC7 : List ReorderReq :=
  [{ id := 1, display_order := 10 }, { id := 2, display_order := 20 }]

/-- C7 counterexample: with two items and the second UPDATE failing, the
first item's `display_order` write is retained while the second is not. -/
theorem C7_counterexample :
    (reorderTimeboxesCmd failSecond 5 ordersC7 dbTwo).2 = false
  ∧ (reorderTimeboxesCmd failSecond 5 ordersC7 dbTwo).1.timeboxes.map
      (fun t => t.display_order) = [some 10, none]
  ∧ dbTwo.timeboxes.map (fun t => t.display_order) = [none, none] := by decide

/-- C7 witness: the sequential-application theorem evaluated at the
concrete two-item batch whose second statement fails. -/
theorem C7_witness :
    reorderTimeboxesCmd failSecond 5 ordersC7 dbTwo =
      ((ordersC7.take 1).foldl (fun d o => applyReorderItem 5 o d) dbTwo, false) :=
  (C7_reorder_not_atomic failSecond 5 ordersC7 dbTwo).2 1 (by decide) (by decide) (by decide)

/-- C8: a session on which `stopped_at` or `cancelled_at` is already set is
never modified by any operation (every closing UPDATE carries the
`stopped_at IS NULL AND cancelled_at IS NULL` guard, so the two markers are
mutually exclusive forever and never overwritten); and every session-closing
operation applied when the timebox has zero open sessions leaves the
sessions table exactly unchanged — the UPDATE matches zero rows and does
not fail. -/
theorem C8_close_guards :
    (∀ (now : Int) (op : Op) (db : Db) (s : SessionRow), s ∈ db.sessions →
       (s.stopped_at.isSome = true ∨ s.cancelled_at.isSome = true) →
       s ∈ (applyOp now op db).sessions)
  ∧ (∀ (now i : Int) (db : Db), openSessions db i = [] →
       (stopTimeboxCmd now i db).1.sessions = db.sessions
     ∧ (finishTimeboxCmd now i db).1.sessions = db.sessions
     ∧ (stopAfterTimeCmd now i db).1.sessions = db.sessions
     ∧ (pauseTimeboxCmd now i db).1.sessions = db.sessions
     ∧ (cancelTimeboxCmd now i db).1.sessions = db.sessions)
  ∧ (∀ (now sid : Int) (db : Db),
       (∀ s ∈ db.sessions, s.id = sid → isOpenSession s = false) →
       (stopSessionCmd now sid db).1.sessions = db.sessions
     ∧ (cancelSessionCmd now sid db).1.sessions = db.sessions) := by
  refine ⟨?_, ?_, ?_⟩
  · intro now op db s hmem hclosed
    have hno : isOpenSession s = false := isOpenSession_eq_false s hclosed
    cases op with
    | create req => exact hmem
    | update i req =>
      simp only [applyOp]
      rw [(updateTimeboxCmd_eq now i req db).1]
      exact hmem
    | start i =>
      simp only [applyOp]
      rcases startTimeboxCmd_sessions now i db with h | h <;> rw [h]
      · exact hmem
      · exact List.mem_append.mpr (Or.inl hmem)
    | pause i =>
      exact (closeStoppedRowTb_not_open now i s hno) ▸ List.mem_map_of_mem _ hmem
    | stop i =>
      exact (closeStoppedRowTb_not_open now i s hno) ▸ List.mem_map_of_mem _ hmem
    | finish i =>
      exact (closeStoppedRowTb_not_open now i s hno) ▸ List.mem_map_of_mem _ hmem
    | stopAfterTime i =>
      exact (closeStoppedRowTb_not_open now i s hno) ▸ List.mem_map_of_mem _ hmem
    | cancel i =>
      exact (closeCancelledRowTb_not_open now i s hno) ▸ List.mem_map_of_mem _ hmem
    | delete i => exact hmem
    | archive i => exact hmem
    | unarchive i => exact hmem
    | reorder failAt orders =>
      simp only [applyOp]
      have h := reorderGo_fst_sessions failAt now orders 0 db
      unfold reorderTimeboxesCmd
      rw [h]
      exact hmem
    | stopSession sid =>
      exact (stopSessionRow_not_open now sid s hno) ▸ List.mem_map_of_mem _ hmem
    | cancelSession sid =>
      exact (cancelSessionRow_not_open now sid s hno) ▸ List.mem_map_of_mem _ hmem
  · intro now i db h
    unfold openSessions at h
    have hall : ∀ s ∈ db.sessions, ¬ ((s.timebox_id == i && isOpenSession s) = true) := by
      intro s hs hguard
      have : s ∈ db.sessions.filter (fun s => s.timebox_id == i && isOpenSession s) :=
        List.mem_filter.mpr ⟨hs, hguard⟩
      rw [h] at this
      exact absurd this (List.not_mem_nil s)
    have hstop : db.sessions.map (closeStoppedRowTb now i) = db.sessions :=
      map_eq_self _ _ (fun s hs => by
        unfold closeStoppedRowTb
        rw [if_neg (hall s hs)])
    have hcanc : db.sessions.map (closeCancelledRowTb now i) = db.sessions :=
      map_eq_self _ _ (fun s hs => by
        unfold closeCancelledRowTb
        rw [if_neg (hall s hs)])
    exact ⟨hstop, hstop, hstop, hstop, hcanc⟩
  · intro now sid db h
    have hfix : ∀ s ∈ db.sessions, ¬ ((s.id == sid && isOpenSession s) = true) := by
      intro s hs hguard
      obtain ⟨h1, h2⟩ := Bool.and_eq_true _ _ |>.mp hguard
      rw [h s hs (by exact beq_iff_eq.mp h1)] at h2
      exact absurd h2 (by simp)
    constructor
    · exact map_eq_self _ _ (fun s hs => by
        unfold stopSessionRow
        rw [if_neg (hfix s hs)])
    · exact map_eq_self _ _ (fun s hs => by
        unfold cancelSessionRow
        rw [if_neg (hfix s hs)])

/-- create, start, stop: one stopped session. -/
def dbW8 : Db := execOps [(0, Op.create reqFocus), (1, Op.start 1), (2, Op.stop 1)] emptyDb

/-- The stored (closed) session of `dbW8`. -/
def sW8 : SessionRow :=
  { id := 1, timebox_id := 1, started_at := 1, stopped_at := some 2, cancelled_at := none }

/-- C8 witness: a concretely stopped session survives a later cancel
unchanged, and stop with no open sessions leaves the table unchanged. -/
theorem C8_witness :
    sW8 ∈ (applyOp 9 (Op.cancel 1) dbW8).sessions
  ∧ (stopTimeboxCmd 9 1 dbW8).1.sessions = dbW8.sessions := by
  obtain ⟨ha, hb, -⟩ := C8_close_guards
  exact ⟨ha 9 (Op.cancel 1) dbW8 sW8 (by decide) (Or.inl (by decide)),
         (hb 9 1 dbW8 (by decide)).1⟩

/-- C9: `finish` and `stop_after_time` both close the timebox's open
sessions (setting `stopped_at = now`) and both set `completed_at = now` and
status `completed`; `finish` sets `finished_at` and leaves
`after_time_stopped_at` unchanged, while `stop_after_time` sets
`after_time_stopped_at` and leaves `finished_at` unchanged — each
transition sets exactly one of the two markers. -/
theorem C9_finish_markers (now i : Int) (db : Db) :
    ((finishTimeboxCmd now i db).1.timeboxes = db.timeboxes.map (finishRowTb now i))
  ∧ ((finishTimeboxCmd now i db).1.sessions = db.sessions.map (closeStoppedRowTb now i))
  ∧ ((stopAfterTimeCmd now i db).1.timeboxes = db.timeboxes.map (afterTimeRowTb now i))
  ∧ ((stopAfterTimeCmd now i db).1.sessions = db.sessions.map (closeStoppedRowTb now i))
  ∧ (∀ t : TimeboxRow, t.id = i →
       (finishRowTb now i t).completed_at = some now
     ∧ (finishRowTb now i t).status = "completed"
     ∧ (finishRowTb now i t).finished_at = some now
     ∧ (finishRowTb now i t).after_time_stopped_at = t.after_time_stopped_at)
  ∧ (∀ t : TimeboxRow, t.id = i →
       (afterTimeRowTb now i t).completed_at = some now
     ∧ (afterTimeRowTb now i t).status = "completed"
     ∧ (afterTimeRowTb now i t).after_time_stopped_at = some now
     ∧ (afterTimeRowTb now i t).finished_at = t.finished_at)
  ∧ (∀ s : SessionRow, s.timebox_id = i → isOpenSession s = true →
       (closeStoppedRowTb now i s).stopped_at = some now) := by
  refine ⟨rfl, rfl, rfl, rfl, ?_, ?_, ?_⟩
  · intro t ht
    unfold finishRowTb
    rw [if_pos (beq_iff_eq.mpr ht)]
    exact ⟨rfl, rfl, rfl, rfl⟩
  · intro t ht
    unfold afterTimeRowTb
    rw [if_pos (beq_iff_eq.mpr ht)]
    exact ⟨rfl, rfl, rfl, rfl⟩
  · intro s hs hopen
    unfold closeStoppedRowTb
    rw [if_pos (by rw [hs]; simp [hopen])]

/-- An open session of timebox 1. -/
def sW9 : SessionRow :=
  { id := 1, timebox_id := 1, started_at := 1, stopped_at := none, cancelled_at := none }

/-- C9 witness: the marker facts evaluated on a concrete stopped timebox
and a concrete open session. -/
theorem C9_witness :
    ((finishTimeboxCmd 9 1 dbW3).1.timeboxes = dbW3.timeboxes.map (finishRowTb 9 1))
  ∧ (finishRowTb 9 1 tbW4).after_time_stopped_at = tbW4.after_time_stopped_at
  ∧ (afterTimeRowTb 9 1 tbW4).finished_at = tbW4.finished_at
  ∧ (closeStoppedRowTb 9 1 sW9).stopped_at = some 9 := by
  obtain ⟨hf, -, -, -, hfin, haft, hcl⟩ := C9_finish_markers 9 1 dbW3
  exact ⟨hf, (hfin tbW4 rfl).2.2.2, (haft tbW4 rfl).2.2.2,
         hcl sW9 rfl (by decide)⟩

/-- C10 (amended): the session list query selects the timebox's sessions
ordered newest start first, but `Session::from_row` reads six columns
(mapping `started_at`/`stopped_at`/`cancelled_at` to
`start_time`/`end_time`/`end_reason` and reading a `created_at` at index 5
that the five-column SELECT does not produce), so every row decode fails,
`filter_map(|r| r.ok())` drops them all, and the command returns the empty
list for every database and timebox. -/
theorem C10_sessions_always_empty (db : Db) (tid : Int) :
    getSessionsForTimebox db tid = [] := by
  unfold getSessionsForTimebox
  rw [decodeSessionRows_nil]

/-- create, start: one stored session for timebox 1. -/
def dbC10 : Db := execOps [(0, Op.create reqFocus), (1, Op.start 1)] emptyDb

/-- C10 counterexample: a timebox with one stored session gets an empty
list from `get_sessions_for_timebox`, not a list of length one. -/
theorem C10_counterexample :
    getSessionsForTimebox dbC10 1 = []
  ∧ (dbC10.sessions.filter (fun s => s.timebox_id == 1)).length = 1 := by decide
